import Mathlib

/-!
Shallow embedding of the data-access layer of the ModernCart e-commerce
platform (the DatabaseStorage class of the storage module).

Modelling conventions:
* Each relational table is a list of rows inside a DB state record; inserts
  append at the end and draw a fresh id from a nextId counter (modelling the
  serial primary key).
* A drizzle `select().from(t).where(c)` is List.filter; destructuring the
  first row (`const [x] = ...; return x || undefined`) is List.head?.
* A SQL UPDATE ... WHERE is a List.map that rewrites the matching rows;
  `.returning()` followed by `[x]` is head? of the rewritten matching rows.
* `orderBy(desc(t.createdAt))` is List.mergeSort with a comparator that puts
  larger createdAt timestamps first; LIMIT/OFFSET are take/drop (OFFSET is
  applied before LIMIT, as in SQL).
* SQL numeric/decimal values (prices, order totals), which the TypeScript
  layer carries as exact decimal strings, are modelled as Rat; SQL aggregate
  `sum` over an empty set of rows is NULL, modelled as Option.none.
* JavaScript truthiness tests on numbers (`if (userId)`, `quantity || 1`)
  treat both undefined/null and 0 as falsy; they are modelled explicitly by
  the jsTruthy/jsOr helpers.
* Timestamps (createdAt) are modelled as Nat.
-/

/-- User row (users table): id, username, email, password, role. -/
structure User where
  id : Nat
  username : String
  email : String
  password : String
  role : String
  deriving Repr, DecidableEq

/-- Category row (categories table). -/
structure Category where
  id : Nat
  name : String
  slug : String
  deriving Repr, DecidableEq

/-- Product row (products table). -/
structure Product where
  id : Nat
  name : String
  slug : String
  description : String
  price : Rat
  originalPrice : Option Rat
  imageUrl : String
  categoryId : Option Nat
  stock : Int
  isFeatured : Bool
  isActive : Bool
  rating : Rat
  reviewCount : Nat
  createdAt : Nat
  deriving Repr, DecidableEq

/-- Cart line row (cart_items table); the quantity column is nullable. -/
structure CartItem where
  id : Nat
  userId : Nat
  productId : Nat
  quantity : Option Int
  deriving Repr, DecidableEq

/-- Order header row (orders table). -/
structure Order where
  id : Nat
  userId : Nat
  total : Rat
  status : String
  shippingAddress : String
  paymentMethod : String
  createdAt : Nat
  deriving Repr, DecidableEq

/-- Order line row (order_items table); price is the price snapshotted at
purchase time. -/
structure OrderItem where
  id : Nat
  orderId : Nat
  productId : Nat
  quantity : Int
  price : Rat
  deriving Repr, DecidableEq

/-- The database state: one list of rows per table, plus the next fresh
serial id. -/
structure DB where
  users : List User
  categories : List Category
  products : List Product
  cartItems : List CartItem
  orders : List Order
  orderItems : List OrderItem
  nextId : Nat
  deriving Repr, DecidableEq

/-- Insert payload for a cart line (InsertCartItem); quantity is optional
and the column default is 1 when it is omitted. -/
structure InsertCartItem where
  userId : Nat
  productId : Nat
  quantity : Option Int
  deriving Repr, DecidableEq

/-- Insert payload for an order line (InsertOrderItem). -/
structure InsertOrderItem where
  orderId : Nat
  productId : Nat
  quantity : Int
  price : Rat
  deriving Repr, DecidableEq

/-- Partial update payload for a product (Partial of InsertProduct): a field
set to none is absent from the patch and left untouched. -/
structure ProductPatch where
  name : Option String := none
  slug : Option String := none
  description : Option String := none
  price : Option Rat := none
  originalPrice : Option (Option Rat) := none
  imageUrl : Option String := none
  categoryId : Option (Option Nat) := none
  stock : Option Int := none
  isFeatured : Option Bool := none
  isActive : Option Bool := none
  deriving Repr, DecidableEq

/-- JavaScript truthiness of an optional numeric argument:
undefined and 0 are both falsy (this is what `if (userId)` and
`if (categoryId)` test). -/
def jsTruthyNat : Option Nat → Bool
  | none => false
  | some n => n != 0

/-- JavaScript truthiness of an optional string argument:
undefined and the empty string are falsy (`if (search)`). -/
def jsTruthyStr : Option String → Bool
  | none => false
  | some s => s != ""

/-- JavaScript `x || d` on a nullable integer value: null and 0 both fall
through to the default d. -/
def jsOrInt : Option Int → Int → Int
  | none, d => d
  | some v, d => if v = 0 then d else v

/-- JavaScript `x || 0` applied to a SQL count (counts are never null, so
only an actual 0 takes the default branch). -/
def jsOrNat (x d : Nat) : Nat := if x = 0 then d else x

/-- SQL ILIKE with wildcards on both sides: case-insensitive substring
containment of the pattern in the column value. -/
def ilikeContains (value pat : String) : Bool :=
  decide (List.IsInfix pat.toLower.toList value.toLower.toList)

/-- Comparator realising `orderBy(desc(createdAt))` on products: a sorts
before b when its timestamp is at least b's. -/
def descCreatedAtP (a b : Product) : Bool := decide (b.createdAt ≤ a.createdAt)

/-- Comparator realising `orderBy(desc(createdAt))` on orders. -/
def descCreatedAtO (a b : Order) : Bool := decide (b.createdAt ≤ a.createdAt)

/-- WHERE clause of getProducts: always `isActive = true`; the categoryId
and search conditions are pushed only when the argument is JS-truthy. -/
def productCond (categoryId : Option Nat) (search : Option String) (p : Product) : Bool :=
  p.isActive
    && (if jsTruthyNat categoryId then p.categoryId == some (categoryId.getD 0) else true)
    && (if jsTruthyStr search then ilikeContains p.name (search.getD "") else true)

/-- DatabaseStorage.getProducts: filter, order by createdAt descending,
then OFFSET and LIMIT. The TypeScript defaults are limit 20, offset 0. -/
def getProducts (db : DB) (limit offset : Nat) (categoryId : Option Nat)
    (search : Option String) : List Product :=
  ((((db.products.filter (productCond categoryId search)).mergeSort
    descCreatedAtP).drop offset).take limit)

/-- DatabaseStorage.getFeaturedProducts: active and featured, ordered by
createdAt descending, LIMIT only (TypeScript default limit 8). -/
def getFeaturedProducts (db : DB) (limit : Nat) : List Product :=
  (((db.products.filter (fun p => p.isActive && p.isFeatured)).mergeSort
    descCreatedAtP).take limit)

/-- DatabaseStorage.getUser: select by id, first row or undefined. -/
def getUser (db : DB) (id : Nat) : Option User :=
  (db.users.filter (fun u => u.id == id)).head?

/-- DatabaseStorage.getUserByUsername. -/
def getUserByUsername (db : DB) (username : String) : Option User :=
  (db.users.filter (fun u => u.username == username)).head?

/-- DatabaseStorage.getUserByEmail. -/
def getUserByEmail (db : DB) (email : String) : Option User :=
  (db.users.filter (fun u => u.email == email)).head?

/-- DatabaseStorage.getCategoryById. -/
def getCategoryById (db : DB) (id : Nat) : Option Category :=
  (db.categories.filter (fun c => c.id == id)).head?

/-- DatabaseStorage.getProductById. -/
def getProductById (db : DB) (id : Nat) : Option Product :=
  (db.products.filter (fun p => p.id == id)).head?

/-- DatabaseStorage.getProductBySlug. -/
def getProductBySlug (db : DB) (slug : String) : Option Product :=
  (db.products.filter (fun p => p.slug == slug)).head?

/-- DatabaseStorage.updateProductStock: a single arithmetic UPDATE
`set stock = stock - quantity where id = id`; no floor is applied. -/
def updateProductStock (db : DB) (id : Nat) (quantity : Int) : DB :=
  let t := db.products.map
    (fun p => if p.id == id then { p with stock := p.stock - quantity } else p)
  { db with products := t }

/-- Application of a partial product patch to a row: supplied fields
overwrite, absent fields keep the stored value. -/
def applyPatch (patch : ProductPatch) (p : Product) : Product :=
  { p with
    name := patch.name.getD p.name
    slug := patch.slug.getD p.slug
    description := patch.description.getD p.description
    price := patch.price.getD p.price
    originalPrice := patch.originalPrice.getD p.originalPrice
    imageUrl := patch.imageUrl.getD p.imageUrl
    categoryId := patch.categoryId.getD p.categoryId
    stock := patch.stock.getD p.stock
    isFeatured := patch.isFeatured.getD p.isFeatured
    isActive := patch.isActive.getD p.isActive }

/-- DatabaseStorage.updateProduct: UPDATE ... WHERE id, returning the
updated row or undefined when the id does not exist. -/
def updateProduct (db : DB) (id : Nat) (patch : ProductPatch) : DB × Option Product :=
  let t := db.products.map (fun p => if p.id == id then applyPatch patch p else p)
  ({ db with products := t }, (t.filter (fun p => p.id == id)).head?)

/-- DatabaseStorage.addToCart: look up an existing line for the
(userId, productId) pair; if present, set its quantity to
`(existing.quantity || 0) + (cartItem.quantity || 1)`; otherwise insert a
new line with the given values. -/
def addToCart (db : DB) (c : InsertCartItem) : DB × Option CartItem :=
  match (db.cartItems.filter
      (fun it => it.userId == c.userId && it.productId == c.productId)).head? with
  | some existing =>
    let newQty : Int := jsOrInt existing.quantity 0 + jsOrInt c.quantity 1
    let t := db.cartItems.map
      (fun it => if it.id == existing.id then { it with quantity := some newQty } else it)
    ({ db with cartItems := t }, (t.filter (fun it => it.id == existing.id)).head?)
  | none =>
    let newItem : CartItem :=
      { id := db.nextId, userId := c.userId, productId := c.productId,
        quantity := some (c.quantity.getD 1) }
    ({ db with cartItems := db.cartItems ++ [newItem], nextId := db.nextId + 1 },
      some newItem)

/-- DatabaseStorage.createOrderItem: plain INSERT returning the new row. -/
def createOrderItem (db : DB) (ins : InsertOrderItem) : DB × OrderItem :=
  let row : OrderItem :=
    { id := db.nextId, orderId := ins.orderId, productId := ins.productId,
      quantity := ins.quantity, price := ins.price }
  ({ db with orderItems := db.orderItems ++ [row], nextId := db.nextId + 1 }, row)

/-- DatabaseStorage.updateOrderStatus: UPDATE orders SET status WHERE id,
returning the updated row or undefined. -/
def updateOrderStatus (db : DB) (id : Nat) (status : String) : DB × Option Order :=
  let t := db.orders.map (fun o => if o.id == id then { o with status := status } else o)
  ({ db with orders := t }, (t.filter (fun o => o.id == id)).head?)

/-- Per-order item fan-out of getOrders/getOrderById: the order's lines,
each left-joined to its product row (none when the product is gone). -/
def getOrderItemsFor (db : DB) (oid : Nat) : List (OrderItem × Option Product) :=
  (db.orderItems.filter (fun oi => oi.orderId == oid)).map
    (fun oi => (oi, (db.products.filter (fun p => p.id == oi.productId)).head?))

/-- DatabaseStorage.getOrders: the user filter is applied only when the
userId argument is JS-truthy (so userId 0 behaves like an omitted userId);
order by createdAt descending, OFFSET then LIMIT, then the item fan-out.
TypeScript defaults are limit 20, offset 0. -/
def getOrders (db : DB) (userId : Option Nat) (limit offset : Nat) :
    List (Order × List (OrderItem × Option Product)) :=
  let base := if jsTruthyNat userId
    then db.orders.filter (fun o => o.userId == userId.getD 0)
    else db.orders
  (((base.mergeSort descCreatedAtO).drop offset).take limit).map
    (fun o => (o, getOrderItemsFor db o.id))

/-- SQL aggregate sum over the rows of a query: NULL (none) when there are
no rows. -/
def sqlSum (l : List Rat) : Option Rat :=
  match l with
  | [] => none
  | _ => some l.sum

/-- Result record of getOrderStats. -/
structure OrderStats where
  totalOrders : Nat
  totalRevenue : Rat
  totalProducts : Nat
  totalCustomers : Nat
  deriving Repr, DecidableEq

/-- DatabaseStorage.getOrderStats: count and sum over all orders, count
over all products (no isActive condition), count of users with role
"user". The JavaScript `|| 0` fallbacks on the counts only matter at 0;
the `|| '0'` fallback on the revenue string only fires when the SQL sum is
NULL (an order count of zero), since every non-empty decimal string -
including "0" - is truthy. -/
def getOrderStats (db : DB) : OrderStats :=
  { totalOrders := jsOrNat db.orders.length 0
    totalRevenue := (sqlSum (db.orders.map (fun o => o.total))).getD 0
    totalProducts := jsOrNat db.products.length 0
    totalCustomers := jsOrNat (db.users.filter (fun u => u.role == "user")).length 0 }

/-- Empty database state. -/
def emptyDB : DB :=
  { users := [], categories := [], products := [], cartItems := [], orders := [],
    orderItems := [], nextId := 1 }

/-- Concrete cart line used as witness input. -/
def ci0 : CartItem := { id := 1, userId := 1, productId := 5, quantity := some 2 }

/-- Database holding exactly the cart line ci0. -/
def db10w : DB := { emptyDB with cartItems := [ci0], nextId := 2 }

/-- Sample customer user. -/
def userA : User :=
  { id := 1, username := "alice", email := "alice@example.com", password := "h",
    role := "user" }

/-- Sample category. -/
def catA : Category := { id := 1, name := "Things", slug := "things" }

/-- Family of active sample products with pairwise distinct ids and
creation timestamps. -/
def prodActiveMk (i : Nat) : Product :=
  { id := i, name := "item", slug := "item", description := "d", price := 7,
    originalPrice := none, imageUrl := "u", categoryId := some 1, stock := 10,
    isFeatured := true, isActive := true, rating := 0, reviewCount := 0,
    createdAt := 100 + i }

/-- Sample product that has been soft-deleted (isActive false). -/
def prodInactive : Product :=
  { id := 9, name := "ghost", slug := "ghost", description := "d", price := 5,
    originalPrice := none, imageUrl := "u", categoryId := none, stock := 3,
    isFeatured := true, isActive := false, rating := 0, reviewCount := 0,
    createdAt := 50 }

/-- Database with one inactive product. -/
def db2w : DB := { emptyDB with products := [prodInactive], nextId := 10 }

/-- Database with four active products. -/
def db4w : DB :=
  { emptyDB with
    products := [prodActiveMk 1, prodActiveMk 2, prodActiveMk 3, prodActiveMk 4],
    nextId := 5 }

/-- Database with one user, one category and one product. -/
def db6w : DB :=
  { emptyDB with
    users := [userA],
    categories := [catA],
    products := [prodActiveMk 1],
    nextId := 2 }

/-- Sample order header. -/
def ordA : Order :=
  { id := 1, userId := 1, total := 10, status := "pending", shippingAddress := "s",
    paymentMethod := "card", createdAt := 5 }

/-- Sample order line of ordA. -/
def oiA : OrderItem := { id := 2, orderId := 1, productId := 1, quantity := 1, price := 10 }

/-- Database with one order carrying one order line. -/
def db7w : DB := { emptyDB with orders := [ordA], orderItems := [oiA], nextId := 3 }

/-- Patch that renames a product and touches nothing else. -/
def patch0 : ProductPatch := { name := some "renamed" }

/-! ## Helper lemmas -/

theorem jsOrInt_some_zero (v : Int) : jsOrInt (some v) 0 = v := by
  simp only [jsOrInt]
  split
  · omega
  · rfl

theorem jsOrInt_some_of_ne (v d : Int) (h : v ≠ 0) : jsOrInt (some v) d = v := by
  simp [jsOrInt, h]

theorem jsOrInt_zero_arg (d : Int) : jsOrInt (some 0) d = d := by
  simp [jsOrInt]

theorem cartFilter_eq_nil (l : List CartItem) (u p : Nat)
    (h : ∀ c ∈ l, ¬(c.userId = u ∧ c.productId = p)) :
    l.filter (fun c => c.userId == u && c.productId == p) = [] := by
  rw [List.filter_eq_nil_iff]
  intro a ha
  simp only [Bool.and_eq_true, beq_iff_eq]
  exact h a ha

theorem addToCart_absent (db : DB) (u p : Nat) (q : Option Int)
    (h : ∀ c ∈ db.cartItems, ¬(c.userId = u ∧ c.productId = p)) :
    addToCart db { userId := u, productId := p, quantity := q }
      = ({ db with
            cartItems := db.cartItems ++
              [{ id := db.nextId, userId := u, productId := p, quantity := some (q.getD 1) }],
            nextId := db.nextId + 1 },
          some { id := db.nextId, userId := u, productId := p,
                 quantity := some (q.getD 1) }) := by
  simp only [addToCart]
  rw [cartFilter_eq_nil db.cartItems u p h]
  rfl

theorem addToCart_present (db : DB) (u p : Nat) (q : Option Int) (existing : CartItem)
    (hex : (db.cartItems.filter
        (fun c => c.userId == u && c.productId == p)).head? = some existing) :
    addToCart db { userId := u, productId := p, quantity := q }
      = (let newQty := jsOrInt existing.quantity 0 + jsOrInt q 1
         let t := db.cartItems.map
           (fun it => if it.id == existing.id then { it with quantity := some newQty } else it)
         ({ db with cartItems := t },
          (t.filter (fun it => it.id == existing.id)).head?)) := by
  simp only [addToCart]
  rw [hex]

/-! ## C1 -/

/-- C1 counterexample: starting from an empty cart, adding (userId 1,
productId 5) with quantity 2 and then with quantity 0 leaves one line whose
quantity is 3, not the claimed q1 + q2 = 2 (the second call's quantity 0 is
JS-falsy and is replaced by the default increment 1). -/
theorem C1_counterexample :
    (((addToCart (addToCart emptyDB
          { userId := 1, productId := 5, quantity := some 2 }).1
        { userId := 1, productId := 5, quantity := some 0 }).1.cartItems.filter
      (fun c => c.userId == 1 && c.productId == 5)).map (fun c => c.quantity))
      = [some 3] ∧ some (3 : Int) ≠ some ((2 : Int) + 0) := by
  constructor
  · rfl
  · decide

/-- C1 (amended): for every userId u, productId p and quantities q1, q2
with q2 nonzero, starting from a state with no cart line for (u, p), two
successive addToCart calls for (u, p) with quantities q1 then q2 leave
exactly one cart line for (u, p) and its quantity is q1 + q2. (The
amendment excludes q2 = 0, where the code adds the default 1 instead - see
the counterexample.) -/
theorem C1_add_twice (db : DB) (u p : Nat) (q1 q2 : Int) (hq2 : q2 ≠ 0)
    (habsent : ∀ c ∈ db.cartItems, ¬(c.userId = u ∧ c.productId = p)) :
    (((addToCart (addToCart db { userId := u, productId := p, quantity := some q1 }).1
        { userId := u, productId := p, quantity := some q2 }).1.cartItems.filter
      (fun c => c.userId == u && c.productId == p)).map (fun c => c.quantity))
      = [some (q1 + q2)] := by
  rw [addToCart_absent db u p (some q1) habsent]
  set n1 : CartItem :=
    { id := db.nextId, userId := u, productId := p, quantity := some ((some q1).getD 1) }
    with hn1
  have hfil2 : ((db.cartItems ++ [n1]).filter
      (fun c => c.userId == u && c.productId == p)).head? = some n1 := by
    rw [List.filter_append, cartFilter_eq_nil db.cartItems u p habsent]
    simp [hn1]
  rw [addToCart_present _ u p (some q2) n1 hfil2]
  simp only []
  rw [List.map_append, List.filter_append]
  have hleft : ((db.cartItems.map
      (fun it => if it.id == n1.id
        then { it with quantity := some (jsOrInt n1.quantity 0 + jsOrInt (some q2) 1) }
        else it)).filter (fun c => c.userId == u && c.productId == p)) = [] := by
    rw [List.filter_eq_nil_iff]
    intro a ha
    obtain ⟨b, hb, rfl⟩ := List.mem_map.mp ha
    have hnb := habsent b hb
    by_cases hid : (b.id == n1.id) = true
    · simp only [hid, if_pos, Bool.and_eq_true, beq_iff_eq]
      exact hnb
    · simp only [Bool.not_eq_true] at hid
      simp only [hid, Bool.false_eq_true, if_false, Bool.and_eq_true, beq_iff_eq]
      exact hnb
  rw [hleft]
  have hq : jsOrInt n1.quantity 0 + jsOrInt (some q2) 1 = q1 + q2 := by
    rw [hn1]
    simp only [Option.getD_some]
    rw [jsOrInt_some_zero, jsOrInt_some_of_ne q2 1 hq2]
  simp [hn1, hq]
  rw [jsOrInt_some_zero, jsOrInt_some_of_ne q2 1 hq2]

/-- C1 witness: the amended theorem applied at the concrete inputs of the
spec example (quantity 2 then quantity 3 on an empty cart gives one line of
quantity 5). -/
theorem C1_add_twice_witness :
    (((addToCart (addToCart emptyDB
          { userId := 1, productId := 5, quantity := some 2 }).1
        { userId := 1, productId := 5, quantity := some 3 }).1.cartItems.filter
      (fun c => c.userId == 1 && c.productId == 5)).map (fun c => c.quantity))
      = [some (2 + 3)] :=
  C1_add_twice emptyDB 1 5 2 3 (by decide) (by intro c hc; simp [emptyDB] at hc)

/-! ## C10 -/

/-- C10: when a cart line already exists for (u, p) with quantity k, an
addToCart call for (u, p) with quantity 0 produces that line with quantity
k + 1 (the JS-falsy 0 falls back to the default increment 1); when no line
exists, the same call appends a new line whose stored quantity is the given
0. -/
theorem C10_zero_quantity (db : DB) (u p : Nat) (k : Int) (existing : CartItem)
    (hex : (db.cartItems.filter
        (fun c => c.userId == u && c.productId == p)).head? = some existing)
    (hq : existing.quantity = some k) :
    ({ existing with quantity := some (k + 1) }
        ∈ (addToCart db { userId := u, productId := p, quantity := some 0 }).1.cartItems)
    ∧ ∀ db2 : DB, (∀ c ∈ db2.cartItems, ¬(c.userId = u ∧ c.productId = p)) →
        (addToCart db2 { userId := u, productId := p, quantity := some 0 }).1.cartItems
          = db2.cartItems
            ++ [{ id := db2.nextId, userId := u, productId := p, quantity := some 0 }] := by
  constructor
  · rw [addToCart_present db u p (some 0) existing hex]
    simp only []
    apply List.mem_map.mpr
    refine ⟨existing, ?_, ?_⟩
    · exact List.mem_of_mem_filter (List.mem_of_mem_head? (by rw [hex]; rfl))
    · simp only [beq_self_eq_true, if_true, hq, jsOrInt_some_zero, jsOrInt_zero_arg]
  · intro db2 habs
    rw [addToCart_absent db2 u p (some 0) habs]
    rfl

/-- C10 witness: the theorem applied to a database holding one (1, 5) line
of quantity 2 (increment branch) and to the empty database (insert
branch). -/
theorem C10_zero_quantity_witness :
    ({ ci0 with quantity := some (2 + 1) }
        ∈ (addToCart db10w { userId := 1, productId := 5, quantity := some 0 }).1.cartItems)
    ∧ (addToCart emptyDB { userId := 1, productId := 5, quantity := some 0 }).1.cartItems
        = emptyDB.cartItems
          ++ [{ id := emptyDB.nextId, userId := 1, productId := 5, quantity := some 0 }] := by
  have h := C10_zero_quantity db10w 1 5 2 ci0 (by rfl) (by rfl)
  exact ⟨h.1, h.2 emptyDB (by intro c hc; simp [emptyDB] at hc)⟩

/-! ## C3 -/

/-- Commuting a filter with a row-rewriting map, when the rewrite does not
change the filtered key. -/
theorem filter_map_comm {α : Type} (l : List α) (p : α → Bool) (f : α → α)
    (hp : ∀ x, p (f x) = p x) :
    (l.map f).filter p = (l.filter p).map f := by
  rw [List.filter_map]
  congr 1
  exact List.filter_congr (fun a _ => hp a)

/-- C3: updateProductStock touches no table other than products, keeps the
product count, leaves every product whose id differs untouched, and rewrites
each product with the given id to the same row with stock replaced by
stock - q exactly - every other field preserved - with no lower bound, so
the stock goes negative whenever q exceeds it. -/
theorem C3_stock_update (db : DB) (id : Nat) (q : Int) :
    (updateProductStock db id q).users = db.users
  ∧ (updateProductStock db id q).categories = db.categories
  ∧ (updateProductStock db id q).cartItems = db.cartItems
  ∧ (updateProductStock db id q).orders = db.orders
  ∧ (updateProductStock db id q).orderItems = db.orderItems
  ∧ (updateProductStock db id q).nextId = db.nextId
  ∧ (updateProductStock db id q).products.length = db.products.length
  ∧ (∀ p ∈ db.products, p.id ≠ id → p ∈ (updateProductStock db id q).products)
  ∧ (∀ p ∈ db.products, p.id = id →
      { p with stock := p.stock - q } ∈ (updateProductStock db id q).products)
  ∧ (∀ p2 ∈ (updateProductStock db id q).products, ∃ p ∈ db.products,
      p2.id = p.id ∧ p2.name = p.name ∧ p2.slug = p.slug
      ∧ p2.description = p.description ∧ p2.price = p.price
      ∧ p2.originalPrice = p.originalPrice ∧ p2.imageUrl = p.imageUrl
      ∧ p2.categoryId = p.categoryId ∧ p2.isFeatured = p.isFeatured
      ∧ p2.isActive = p.isActive ∧ p2.rating = p.rating
      ∧ p2.reviewCount = p.reviewCount ∧ p2.createdAt = p.createdAt
      ∧ (p.id ≠ id → p2.stock = p.stock) ∧ (p.id = id → p2.stock = p.stock - q))
  ∧ (∀ p ∈ db.products, p.id = id → p.stock < q →
      ∃ p2 ∈ (updateProductStock db id q).products, p2.id = id ∧ p2.stock < 0) := by
  refine ⟨rfl, rfl, rfl, rfl, rfl, rfl, List.length_map .., ?_, ?_, ?_, ?_⟩
  · intro p hp hne
    exact List.mem_map.mpr ⟨p, hp, by simp [hne]⟩
  · intro p hp hpid
    exact List.mem_map.mpr ⟨p, hp, by simp [hpid]⟩
  · intro p2 h2
    obtain ⟨p, hp, rfl⟩ := List.mem_map.mp h2
    refine ⟨p, hp, ?_⟩
    by_cases hid : p.id = id <;> simp [hid]
  · intro p hp hpid hlt
    refine ⟨{ p with stock := p.stock - q }, List.mem_map.mpr ⟨p, hp, by simp [hpid]⟩,
      hpid, ?_⟩
    show p.stock - q < 0
    omega

/-- C3 witness: decrementing product 1 of the sample database by 5. -/
theorem C3_stock_update_witness :
    ({ prodActiveMk 1 with stock := (prodActiveMk 1).stock - 5 }
        ∈ (updateProductStock db6w 1 5).products)
    ∧ (updateProductStock db6w 1 5).orders = db6w.orders := by
  obtain ⟨h1, h2, h3, h4, h5, h6, h7, h8, h9, h10, h11⟩ := C3_stock_update db6w 1 5
  exact ⟨h9 (prodActiveMk 1) (by simp [db6w, emptyDB]) rfl, h4⟩

/-! ## C7 -/

/-- C7: updateOrderStatus leaves every table other than orders untouched -
in particular every OrderItem row and its recorded price - rewrites exactly
the orders with the given id, changing only their status field; when no
order has the id it returns none and the state is unchanged, and when one
does it returns the first matching order with the new status. -/
theorem C7_order_status (db : DB) (id : Nat) (status : String) :
    (updateOrderStatus db id status).1.orderItems = db.orderItems
  ∧ ((updateOrderStatus db id status).1.orderItems.map (fun oi => oi.price)
      = db.orderItems.map (fun oi => oi.price))
  ∧ (updateOrderStatus db id status).1.users = db.users
  ∧ (updateOrderStatus db id status).1.products = db.products
  ∧ (updateOrderStatus db id status).1.cartItems = db.cartItems
  ∧ (updateOrderStatus db id status).1.categories = db.categories
  ∧ (updateOrderStatus db id status).1.nextId = db.nextId
  ∧ (updateOrderStatus db id status).1.orders
      = db.orders.map (fun o => if o.id = id then { o with status := status } else o)
  ∧ ((∀ o ∈ db.orders, o.id ≠ id) →
      (updateOrderStatus db id status).1 = db
      ∧ (updateOrderStatus db id status).2 = none)
  ∧ (∀ o, (db.orders.filter (fun o => o.id == id)).head? = some o →
      (updateOrderStatus db id status).2 = some { o with status := status }) := by
  have hkeep : ∀ x : Order,
      (((if x.id == id then { x with status := status } else x) : Order).id == id)
        = (x.id == id) := by
    intro x
    by_cases hx : x.id = id <;> simp [hx]
  refine ⟨rfl, rfl, rfl, rfl, rfl, rfl, rfl, ?_, ?_, ?_⟩
  · show db.orders.map (fun o => if o.id == id then { o with status := status } else o)
      = db.orders.map (fun o => if o.id = id then { o with status := status } else o)
    apply List.map_congr_left
    intro a _
    by_cases h : a.id = id <;> simp [h]
  · intro h
    have hmap : db.orders.map
        (fun o => if o.id == id then { o with status := status } else o) = db.orders := by
      conv_rhs => rw [← List.map_id' db.orders]
      apply List.map_congr_left
      intro a ha
      simp [h a ha]
    constructor
    · show ({ db with orders := db.orders.map (fun o => if o.id == id then { o with status := status } else o) } : DB) = db
      rw [hmap]
    · show (((db.orders.map
          (fun o => if o.id == id then { o with status := status } else o)).filter
            (fun o => o.id == id)).head?) = none
      rw [filter_map_comm _ _ _ hkeep]
      have hfil : db.orders.filter (fun o => o.id == id) = [] := by
        rw [List.filter_eq_nil_iff]
        intro a ha
        simp [h a ha]
      rw [hfil]
      rfl
  · intro o ho
    have hmemf : o ∈ db.orders.filter (fun x => x.id == id) := List.mem_of_mem_head? ho
    have hoid : (o.id == id) = true := (List.mem_filter.mp hmemf).2
    show (((db.orders.map
        (fun o => if o.id == id then { o with status := status } else o)).filter
          (fun o => o.id == id)).head?) = some { o with status := status }
    rw [filter_map_comm _ _ _ hkeep, List.head?_map, ho]
    simp [hoid]
    intro h
    exact absurd (by simpa using hoid) h

/-- C7 witness: marking the sample order completed leaves its order line -
and so the snapshotted price - untouched and returns the updated header. -/
theorem C7_order_status_witness :
    (updateOrderStatus db7w 1 "completed").1.orderItems = db7w.orderItems
    ∧ (updateOrderStatus db7w 1 "completed").2 = some { ordA with status := "completed" } := by
  obtain ⟨h1, h2, h3, h4, h5, h6, h7, h8, h9, h10⟩ := C7_order_status db7w 1 "completed"
  exact ⟨h1, h10 ordA rfl⟩

/-! ## C8 -/

/-- C8: updateProduct rewrites exactly the products with the given id by
applying the partial patch - a field absent from the patch keeps its stored
value, and id, rating, reviewCount, createdAt are never patchable - leaves
every other product and every other table untouched, returns the first
updated row, and when no product has the id it returns none with the state
unchanged. -/
theorem C8_partial_update (db : DB) (id : Nat) (patch : ProductPatch) :
    (updateProduct db id patch).1.users = db.users
  ∧ (updateProduct db id patch).1.categories = db.categories
  ∧ (updateProduct db id patch).1.cartItems = db.cartItems
  ∧ (updateProduct db id patch).1.orders = db.orders
  ∧ (updateProduct db id patch).1.orderItems = db.orderItems
  ∧ (updateProduct db id patch).1.nextId = db.nextId
  ∧ (updateProduct db id patch).1.products
      = db.products.map (fun p => if p.id = id then applyPatch patch p else p)
  ∧ (∀ p : Product,
        (patch.name = none → (applyPatch patch p).name = p.name)
      ∧ (∀ v, patch.name = some v → (applyPatch patch p).name = v)
      ∧ (patch.slug = none → (applyPatch patch p).slug = p.slug)
      ∧ (∀ v, patch.slug = some v → (applyPatch patch p).slug = v)
      ∧ (patch.description = none → (applyPatch patch p).description = p.description)
      ∧ (∀ v, patch.description = some v → (applyPatch patch p).description = v)
      ∧ (patch.price = none → (applyPatch patch p).price = p.price)
      ∧ (∀ v, patch.price = some v → (applyPatch patch p).price = v)
      ∧ (patch.originalPrice = none → (applyPatch patch p).originalPrice = p.originalPrice)
      ∧ (∀ v, patch.originalPrice = some v → (applyPatch patch p).originalPrice = v)
      ∧ (patch.imageUrl = none → (applyPatch patch p).imageUrl = p.imageUrl)
      ∧ (∀ v, patch.imageUrl = some v → (applyPatch patch p).imageUrl = v)
      ∧ (patch.categoryId = none → (applyPatch patch p).categoryId = p.categoryId)
      ∧ (∀ v, patch.categoryId = some v → (applyPatch patch p).categoryId = v)
      ∧ (patch.stock = none → (applyPatch patch p).stock = p.stock)
      ∧ (∀ v, patch.stock = some v → (applyPatch patch p).stock = v)
      ∧ (patch.isFeatured = none → (applyPatch patch p).isFeatured = p.isFeatured)
      ∧ (∀ v, patch.isFeatured = some v → (applyPatch patch p).isFeatured = v)
      ∧ (patch.isActive = none → (applyPatch patch p).isActive = p.isActive)
      ∧ (∀ v, patch.isActive = some v → (applyPatch patch p).isActive = v)
      ∧ (applyPatch patch p).id = p.id
      ∧ (applyPatch patch p).rating = p.rating
      ∧ (applyPatch patch p).reviewCount = p.reviewCount
      ∧ (applyPatch patch p).createdAt = p.createdAt)
  ∧ ((∀ p ∈ db.products, p.id ≠ id) →
      (updateProduct db id patch).1 = db ∧ (updateProduct db id patch).2 = none)
  ∧ (∀ p, (db.products.filter (fun x => x.id == id)).head? = some p →
      (updateProduct db id patch).2 = some (applyPatch patch p)) := by
  have hkeep : ∀ x : Product,
      (((if x.id == id then applyPatch patch x else x) : Product).id == id)
        = (x.id == id) := by
    intro x
    by_cases hx : x.id = id <;> simp [applyPatch, hx]
  refine ⟨rfl, rfl, rfl, rfl, rfl, rfl, ?_, ?_, ?_, ?_⟩
  · show db.products.map (fun p => if p.id == id then applyPatch patch p else p)
      = db.products.map (fun p => if p.id = id then applyPatch patch p else p)
    apply List.map_congr_left
    intro a _
    by_cases h : a.id = id <;> simp [h]
  · intro p
    exact ⟨fun h => by simp [applyPatch, h], fun v h => by simp [applyPatch, h],
      fun h => by simp [applyPatch, h], fun v h => by simp [applyPatch, h],
      fun h => by simp [applyPatch, h], fun v h => by simp [applyPatch, h],
      fun h => by simp [applyPatch, h], fun v h => by simp [applyPatch, h],
      fun h => by simp [applyPatch, h], fun v h => by simp [applyPatch, h],
      fun h => by simp [applyPatch, h], fun v h => by simp [applyPatch, h],
      fun h => by simp [applyPatch, h], fun v h => by simp [applyPatch, h],
      fun h => by simp [applyPatch, h], fun v h => by simp [applyPatch, h],
      fun h => by simp [applyPatch, h], fun v h => by simp [applyPatch, h],
      fun h => by simp [applyPatch, h], fun v h => by simp [applyPatch, h],
      rfl, rfl, rfl, rfl⟩
  · intro h
    have hmap : db.products.map (fun p => if p.id == id then applyPatch patch p else p) = db.products := by
      conv_rhs => rw [← List.map_id' db.products]
      apply List.map_congr_left
      intro a ha
      simp [h a ha]
    constructor
    · show ({ db with products := db.products.map (fun p => if p.id == id then applyPatch patch p else p) } : DB) = db
      rw [hmap]
    · show (((db.products.map (fun p => if p.id == id then applyPatch patch p else p)).filter (fun p => p.id == id)).head?) = none
      rw [filter_map_comm _ _ _ hkeep]
      have hfil : db.products.filter (fun p => p.id == id) = [] := by
        rw [List.filter_eq_nil_iff]
        intro a ha
        simp [h a ha]
      rw [hfil]
      rfl
  · intro p hp
    have hmemf : p ∈ db.products.filter (fun x => x.id == id) := List.mem_of_mem_head? hp
    have hpid : (p.id == id) = true := (List.mem_filter.mp hmemf).2
    show (((db.products.map (fun p => if p.id == id then applyPatch patch p else p)).filter (fun p => p.id == id)).head?) = some (applyPatch patch p)
    rw [filter_map_comm _ _ _ hkeep, List.head?_map, hp]
    simp [hpid]
    intro h
    exact absurd (by simpa using hpid) h

/-- C8 witness: renaming the sample product returns the patched row, with
the untouched slug preserved and the supplied name written. -/
theorem C8_partial_update_witness :
    (updateProduct db6w 1 patch0).2 = some (applyPatch patch0 (prodActiveMk 1))
    ∧ (applyPatch patch0 (prodActiveMk 1)).slug = (prodActiveMk 1).slug
    ∧ (applyPatch patch0 (prodActiveMk 1)).name = "renamed" := by
  obtain ⟨h1, h2, h3, h4, h5, h6, h7, h8, h9, h10⟩ := C8_partial_update db6w 1 patch0
  refine ⟨h10 (prodActiveMk 1) rfl, ((h8 (prodActiveMk 1)).2.2.1) rfl, ?_⟩
  exact ((h8 (prodActiveMk 1)).2.1) "renamed" rfl

/-! ## C6 -/

theorem lookup_none {α : Type} (l : List α) (p : α → Bool)
    (h : ∀ x ∈ l, p x = false) : (l.filter p).head? = none := by
  rw [List.filter_eq_nil_iff.mpr (fun a ha => by simp [h a ha])]
  rfl

theorem lookup_unique {α : Type} (l : List α) (p : α → Bool) (u : α)
    (h : l.filter p = [u]) : (l.filter p).head? = some u := by
  rw [h]
  rfl

/-- C6: each lookup-by-key operation is a total function whose result is an
explicit Option - absence is the none value, never an exception - returning
none exactly when no row matches the key and returning the row whenever it
is the unique match. -/
theorem C6_lookups (db : DB) :
    (∀ id, ((∀ u ∈ db.users, u.id ≠ id) → getUser db id = none)
      ∧ ∀ u, db.users.filter (fun x => x.id == id) = [u] → getUser db id = some u)
  ∧ (∀ un, ((∀ u ∈ db.users, u.username ≠ un) → getUserByUsername db un = none)
      ∧ ∀ u, db.users.filter (fun x => x.username == un) = [u] →
          getUserByUsername db un = some u)
  ∧ (∀ em, ((∀ u ∈ db.users, u.email ≠ em) → getUserByEmail db em = none)
      ∧ ∀ u, db.users.filter (fun x => x.email == em) = [u] →
          getUserByEmail db em = some u)
  ∧ (∀ id, ((∀ c ∈ db.categories, c.id ≠ id) → getCategoryById db id = none)
      ∧ ∀ c, db.categories.filter (fun x => x.id == id) = [c] →
          getCategoryById db id = some c)
  ∧ (∀ id, ((∀ p ∈ db.products, p.id ≠ id) → getProductById db id = none)
      ∧ ∀ p, db.products.filter (fun x => x.id == id) = [p] →
          getProductById db id = some p)
  ∧ (∀ sl, ((∀ p ∈ db.products, p.slug ≠ sl) → getProductBySlug db sl = none)
      ∧ ∀ p, db.products.filter (fun x => x.slug == sl) = [p] →
          getProductBySlug db sl = some p) :=
  ⟨fun id => ⟨fun h => lookup_none _ _ (fun x hx => by simpa using h x hx),
      fun u hu => lookup_unique _ _ u hu⟩,
   fun un => ⟨fun h => lookup_none _ _ (fun x hx => by simpa using h x hx),
      fun u hu => lookup_unique _ _ u hu⟩,
   fun em => ⟨fun h => lookup_none _ _ (fun x hx => by simpa using h x hx),
      fun u hu => lookup_unique _ _ u hu⟩,
   fun id => ⟨fun h => lookup_none _ _ (fun x hx => by simpa using h x hx),
      fun c hc => lookup_unique _ _ c hc⟩,
   fun id => ⟨fun h => lookup_none _ _ (fun x hx => by simpa using h x hx),
      fun p hp => lookup_unique _ _ p hp⟩,
   fun sl => ⟨fun h => lookup_none _ _ (fun x hx => by simpa using h x hx),
      fun p hp => lookup_unique _ _ p hp⟩⟩

/-- C6 witness: concrete hits and misses for the six lookups on the sample
database. -/
theorem C6_lookups_witness :
    getUser db6w 2 = none ∧ getUser db6w 1 = some userA
    ∧ getUserByUsername db6w "alice" = some userA
    ∧ getUserByEmail db6w "nobody@example.com" = none
    ∧ getCategoryById db6w 1 = some catA
    ∧ getProductById db6w 1 = some (prodActiveMk 1)
    ∧ getProductBySlug db6w "nope" = none := by
  obtain ⟨hU, hUn, hUe, hC, hP, hPs⟩ := C6_lookups db6w
  exact ⟨(hU 2).1 (by decide), (hU 1).2 userA (by decide),
    (hUn "alice").2 userA (by decide), (hUe "nobody@example.com").1 (by decide),
    (hC 1).2 catA (by decide), (hP 1).2 (prodActiveMk 1) (by decide),
    (hPs "nope").1 (by decide)⟩

/-! ## C5 -/

/-- C5: with zero orders getOrderStats returns totalOrders 0 and revenue 0
(the model of the decimal string "0") rather than null or an error, and in
every state the four figures are the order count, the exact sum of all
order totals, the count of all product rows, and the count of users whose
role is "user". -/
theorem C5_stats (db : DB) :
    (db.orders = [] → (getOrderStats db).totalOrders = 0
      ∧ (getOrderStats db).totalRevenue = 0)
  ∧ (getOrderStats db).totalOrders = db.orders.length
  ∧ (getOrderStats db).totalRevenue = (db.orders.map (fun o => o.total)).sum
  ∧ (getOrderStats db).totalProducts = db.products.length
  ∧ (getOrderStats db).totalCustomers
      = (db.users.filter (fun u => u.role == "user")).length := by
  have hnat : ∀ n : Nat, jsOrNat n 0 = n := by
    intro n
    unfold jsOrNat
    split <;> omega
  have hrev : (getOrderStats db).totalRevenue = (db.orders.map (fun o => o.total)).sum := by
    show (sqlSum (db.orders.map (fun o => o.total))).getD 0 = _
    cases db.orders with
    | nil => rfl
    | cons a t => rfl
  refine ⟨fun h => ⟨?_, ?_⟩, hnat _, hrev, hnat _, hnat _⟩
  · show jsOrNat db.orders.length 0 = 0
    rw [h]
    rfl
  · rw [hrev, h]
    rfl

/-- C5 witness: the zero-order case evaluated on the empty database. -/
theorem C5_stats_witness :
    (getOrderStats emptyDB).totalOrders = 0 ∧ (getOrderStats emptyDB).totalRevenue = 0 :=
  (C5_stats emptyDB).1 rfl

/-! ## C2 -/

theorem mem_getProducts_isActive (db : DB) (p : Product) (limit offset : Nat)
    (cid : Option Nat) (s : Option String)
    (h : p ∈ getProducts db limit offset cid s) :
    p ∈ db.products ∧ p.isActive = true := by
  unfold getProducts at h
  have h1 : p ∈ (db.products.filter (productCond cid s)).mergeSort descCreatedAtP :=
    List.mem_of_mem_drop (List.mem_of_mem_take h)
  have h2 := List.mem_filter.mp (List.mem_mergeSort.mp h1)
  refine ⟨h2.1, ?_⟩
  have hc := h2.2
  simp only [productCond, Bool.and_eq_true] at hc
  exact hc.1.1

/-- C2: a soft-deleted product (isActive false) appears in no getProducts
result and no getFeaturedProducts result, whatever the limit, offset,
category and search arguments, yet the totalProducts figure of
getOrderStats counts every product row, with no isActive condition. -/
theorem C2_inactive_hidden (db : DB) (p : Product) (hp : p.isActive = false) :
    (∀ limit offset cid s, p ∉ getProducts db limit offset cid s)
  ∧ (∀ limit, p ∉ getFeaturedProducts db limit)
  ∧ (getOrderStats db).totalProducts = db.products.length := by
  refine ⟨?_, ?_, ?_⟩
  · intro limit offset cid s hmem
    have h := (mem_getProducts_isActive db p limit offset cid s hmem).2
    rw [hp] at h
    exact Bool.false_ne_true h
  · intro limit hmem
    unfold getFeaturedProducts at hmem
    have h1 : p ∈ (db.products.filter
        (fun q => q.isActive && q.isFeatured)).mergeSort descCreatedAtP :=
      List.mem_of_mem_take hmem
    have h2 := (List.mem_filter.mp (List.mem_mergeSort.mp h1)).2
    rw [Bool.and_eq_true] at h2
    rw [hp] at h2
    exact Bool.false_ne_true h2.1
  · show jsOrNat db.products.length 0 = db.products.length
    unfold jsOrNat
    split <;> omega

/-- C2 witness: the inactive sample product is hidden from the default
listing and the default featured listing but still counted by the stats. -/
theorem C2_inactive_hidden_witness :
    prodInactive ∉ getProducts db2w 20 0 none none
    ∧ prodInactive ∉ getFeaturedProducts db2w 8
    ∧ (getOrderStats db2w).totalProducts = db2w.products.length := by
  obtain ⟨h1, h2, h3⟩ := C2_inactive_hidden db2w prodInactive rfl
  exact ⟨h1 20 0 none none, h2 8, h3⟩

/-! ## C9 -/

/-- C9: getOrders called with userId 0 behaves exactly like getOrders with
the userId omitted - the user filter is applied only to a JS-truthy userId,
and 0 is falsy - so the call pages over the orders of every user (each
returned header is a row of the orders table) rather than returning the
empty order set of a user with id 0. -/
theorem C9_userId_zero (db : DB) (limit offset : Nat) :
    getOrders db (some 0) limit offset = getOrders db none limit offset
  ∧ ∀ x ∈ getOrders db (some 0) limit offset, x.1 ∈ db.orders := by
  constructor
  · rfl
  · intro x hx
    unfold getOrders at hx
    simp only [jsTruthyNat, bne_self_eq_false, if_false, Bool.false_eq_true] at hx
    obtain ⟨o, ho, rfl⟩ := List.mem_map.mp hx
    exact List.mem_mergeSort.mp (List.mem_of_mem_drop (List.mem_of_mem_take ho))

/-- C9 witness: on a database with one order of user 1, querying with
userId 0 equals the unfiltered query and returns that user's order. -/
theorem C9_userId_zero_witness :
    getOrders db7w (some 0) 20 0 = getOrders db7w none 20 0
    ∧ ordA ∈ db7w.orders := by
  have h := C9_userId_zero db7w 20 0
  refine ⟨h.1, ?_⟩
  have hmem : (ordA, getOrderItemsFor db7w ordA.id) ∈ getOrders db7w (some 0) 20 0 := by
    simp [getOrders, jsTruthyNat, db7w, emptyDB]
  exact h.2 _ hmem

/-! ## C4 -/

theorem descCreatedAtP_trans : ∀ a b c : Product,
    descCreatedAtP a b → descCreatedAtP b c → descCreatedAtP a c := by
  intro a b c hab hbc
  simp only [descCreatedAtP, decide_eq_true_eq] at hab hbc ⊢
  omega

theorem descCreatedAtP_total : ∀ a b : Product,
    descCreatedAtP a b || descCreatedAtP b a := by
  intro a b
  simp only [descCreatedAtP, Bool.or_eq_true, decide_eq_true_eq]
  omega

/-- Sorting a product list whose creation timestamps are pairwise distinct
by the descending comparator yields a strictly descending list. -/
theorem mergeSort_products_strict (l : List Product)
    (hnd : (l.map (fun p => p.createdAt)).Nodup) :
    (l.mergeSort descCreatedAtP).Pairwise (fun a b => b.createdAt < a.createdAt) := by
  have hs := List.sorted_mergeSort descCreatedAtP_trans descCreatedAtP_total l
  have hperm : List.Perm ((l.mergeSort descCreatedAtP).map (fun p => p.createdAt))
      (l.map (fun p => p.createdAt)) :=
    (List.mergeSort_perm l descCreatedAtP).map _
  have hnd2 : ((l.mergeSort descCreatedAtP).map (fun p => p.createdAt)).Nodup :=
    hperm.nodup_iff.mpr hnd
  have hne := List.pairwise_map.mp
    (hnd2 : ((l.mergeSort descCreatedAtP).map (fun p => p.createdAt)).Pairwise (· ≠ ·))
  refine (hs.and hne).imp ?_
  intro a b h
  have h1 := h.1
  have h2 := h.2
  simp only [descCreatedAtP, decide_eq_true_eq] at h1
  omega

/-- Every getProducts page is strictly descending in creation time when the
product timestamps are pairwise distinct. -/
theorem getProducts_pairwise (db : DB)
    (hts : (db.products.map (fun p => p.createdAt)).Nodup)
    (limit offset : Nat) (cid : Option Nat) (s : Option String) :
    (getProducts db limit offset cid s).Pairwise (fun a b => b.createdAt < a.createdAt) := by
  have hnd : ((db.products.filter (productCond cid s)).map (fun p => p.createdAt)).Nodup :=
    List.Nodup.sublist (List.Sublist.map _ (List.filter_sublist _)) hts
  have h := mergeSort_products_strict _ hnd
  exact List.Pairwise.sublist ((List.take_sublist _ _).trans (List.drop_sublist _ _)) h

/-- C4: getProducts returns at most limit rows after skipping offset rows,
all of them active products, in strictly descending creation-time order
(given pairwise distinct creation timestamps, which strictness
presupposes); consequently, with at least four active products, the limit 2
pages at offsets 0 and 2 concatenate to four pairwise distinct products in
strictly descending creation-time order, so the two pages do not overlap. -/
theorem C4_pagination (db : DB)
    (hts : (db.products.map (fun p => p.createdAt)).Nodup) :
    (∀ limit offset cid s,
        (getProducts db limit offset cid s).length ≤ limit
      ∧ (getProducts db limit offset cid s).Pairwise (fun a b => b.createdAt < a.createdAt)
      ∧ ∀ p ∈ getProducts db limit offset cid s, p ∈ db.products ∧ p.isActive = true)
  ∧ (4 ≤ (db.products.filter (fun p => p.isActive)).length →
        (getProducts db 2 0 none none ++ getProducts db 2 2 none none).length = 4
      ∧ (getProducts db 2 0 none none ++ getProducts db 2 2 none none).Nodup
      ∧ (getProducts db 2 0 none none ++ getProducts db 2 2 none none).Pairwise
          (fun a b => b.createdAt < a.createdAt)) := by
  constructor
  · intro limit offset cid s
    exact ⟨List.length_take_le _ _, getProducts_pairwise db hts limit offset cid s,
      fun p hp => mem_getProducts_isActive db p limit offset cid s hp⟩
  · intro h4
    have hfe : db.products.filter (productCond none none)
        = db.products.filter (fun p => p.isActive) :=
      List.filter_congr (fun a _ => by simp [productCond, jsTruthyNat, jsTruthyStr])
    have hlen : ((db.products.filter (productCond none none)).mergeSort
        descCreatedAtP).length = (db.products.filter (fun p => p.isActive)).length := by
      rw [List.length_mergeSort, hfe]
    have h4S : 4 ≤ ((db.products.filter (productCond none none)).mergeSort
        descCreatedAtP).length := by
      omega
    have happ : getProducts db 2 0 none none ++ getProducts db 2 2 none none
        = ((db.products.filter (productCond none none)).mergeSort descCreatedAtP).take 4 := by
      show (((db.products.filter (productCond none none)).mergeSort
            descCreatedAtP).drop 0).take 2
          ++ (((db.products.filter (productCond none none)).mergeSort
            descCreatedAtP).drop 2).take 2
        = ((db.products.filter (productCond none none)).mergeSort descCreatedAtP).take 4
      rw [List.drop_zero, ← List.take_add]
    have hstrict := mergeSort_products_strict (db.products.filter (productCond none none))
      (List.Nodup.sublist (List.Sublist.map _ (List.filter_sublist _)) hts)
    have hpw : (getProducts db 2 0 none none ++ getProducts db 2 2 none none).Pairwise
        (fun a b => b.createdAt < a.createdAt) := by
      rw [happ]
      exact List.Pairwise.sublist (List.take_sublist _ _) hstrict
    refine ⟨?_, ?_, hpw⟩
    · rw [happ, List.length_take]
      omega
    · refine List.Pairwise.imp ?_ hpw
      intro a b hlt heq
      rw [heq] at hlt
      omega

/-- C4 witness: the database of four active products with distinct
timestamps satisfies the hypotheses, and the limit 2 pages at offsets 0
and 2 indeed concatenate to four rows. -/
theorem C4_pagination_witness :
    (db4w.products.map (fun p => p.createdAt)).Nodup
    ∧ 4 ≤ (db4w.products.filter (fun p => p.isActive)).length
    ∧ (getProducts db4w 2 0 none none ++ getProducts db4w 2 2 none none).length = 4 := by
  have hnd : (db4w.products.map (fun p => p.createdAt)).Nodup := by decide
  have h4 : 4 ≤ (db4w.products.filter (fun p => p.isActive)).length := by decide
  exact ⟨hnd, h4, ((C4_pagination db4w hnd).2 h4).1⟩
